import Mathlib

/-
Verification of the Telegram Mini-App authentication verifier
(`validateTelegramAuth`) of the clicker backend.

Byte strings are modelled as `List Nat` with every element `< 256`;
32-bit machine words are `Nat` reduced `% 4294967296` wherever overflow
matters.  SHA-256 and HMAC-SHA256 follow FIPS 180-4 / RFC 2104, which is
what node's `crypto.createHmac('sha256', key).update(msg).digest()`
computes.
-/

set_option maxRecDepth 100000

/-- 2^32, the modulus for 32-bit word arithmetic. -/
def M32 : Nat := 4294967296

/-- UTF-8 encoding of a single character (scalar value), as bytes. -/
def charUtf8 (c : Char) : List Nat :=
  let v := c.toNat
  if v < 128 then [v]
  else if v < 2048 then [192 + v / 64, 128 + v % 64]
  else if v < 65536 then [224 + v / 4096, 128 + (v / 64) % 64, 128 + v % 64]
  else [240 + v / 262144, 128 + (v / 4096) % 64, 128 + (v / 64) % 64, 128 + v % 64]

/-- UTF-8 encoding of a string, as bytes (what node feeds to an HMAC for a
JS string input). -/
def strBytes (s : String) : List Nat :=
  s.data.foldr (fun c acc => charUtf8 c ++ acc) []

/-- Rotate a 32-bit word right by `n` bits. -/
def rotr (n x : Nat) : Nat := ((x >>> n) ||| (x <<< (32 - n))) % M32

/-- SHA-256 Ch function. -/
def shCh (x y z : Nat) : Nat := (x &&& y) ^^^ ((x ^^^ (M32 - 1)) &&& z)

/-- SHA-256 Maj function. -/
def shMaj (x y z : Nat) : Nat := (x &&& y) ^^^ (x &&& z) ^^^ (y &&& z)

/-- SHA-256 big sigma 0. -/
def bsig0 (x : Nat) : Nat := rotr 2 x ^^^ rotr 13 x ^^^ rotr 22 x

/-- SHA-256 big sigma 1. -/
def bsig1 (x : Nat) : Nat := rotr 6 x ^^^ rotr 11 x ^^^ rotr 25 x

/-- SHA-256 small sigma 0. -/
def ssig0 (x : Nat) : Nat := rotr 7 x ^^^ rotr 18 x ^^^ (x >>> 3)

/-- SHA-256 small sigma 1. -/
def ssig1 (x : Nat) : Nat := rotr 17 x ^^^ rotr 19 x ^^^ (x >>> 10)

/-- SHA-256 round constants (FIPS 180-4 section 4.2.2), written in
decimal. -/
def shK : List Nat :=
  [1116352408, 1899447441, 3049323471, 3921009573, 961987163,
   1508970993, 2453635748, 2870763221, 3624381080, 310598401,
   607225278, 1426881987, 1925078388, 2162078206, 2614888103,
   3248222580, 3835390401, 4022224774, 264347078, 604807628,
   770255983, 1249150122, 1555081692, 1996064986, 2554220882,
   2821834349, 2952996808, 3210313671, 3336571891, 3584528711,
   113926993, 338241895, 666307205, 773529912, 1294757372,
   1396182291, 1695183700, 1986661051, 2177026350, 2456956037,
   2730485921, 2820302411, 3259730800, 3345764771, 3516065817,
   3600352804, 4094571909, 275423344, 430227734, 506948616,
   659060556, 883997877, 958139571, 1322822218, 1537002063,
   1747873779, 1955562222, 2024104815, 2227730452, 2361852424,
   2428436474, 2756734187, 3204031479, 3329325298]

/-- SHA-256 initial hash value (FIPS 180-4 section 5.3.3), written in
decimal. -/
def shH0 : List Nat :=
  [1779033703, 3144134277, 1013904242, 2773480762, 1359893119,
   2600822924, 528734635, 1541459225]

/-- SHA-256 message padding: append 0x80, zero bytes, and the 64-bit
big-endian bit length. -/
def shPad (msg : List Nat) : List Nat :=
  let z := (64 - ((msg.length + 9) % 64)) % 64
  let bitLen := msg.length * 8
  msg ++ [128] ++ List.replicate z 0 ++
    [(bitLen >>> 56) % 256, (bitLen >>> 48) % 256, (bitLen >>> 40) % 256,
     (bitLen >>> 32) % 256, (bitLen >>> 24) % 256, (bitLen >>> 16) % 256,
     (bitLen >>> 8) % 256, bitLen % 256]

/-- Group bytes into big-endian 32-bit words. -/
def bytesToWords : List Nat → List Nat
  | a :: b :: c :: d :: rest => (((a * 256 + b) * 256 + c) * 256 + d) :: bytesToWords rest
  | _ => []

/-- Serialize 32-bit words to big-endian bytes. -/
def wordsToBytes : List Nat → List Nat
  | [] => []
  | w :: rest =>
    (w >>> 24) % 256 :: (w >>> 16) % 256 :: (w >>> 8) % 256 :: w % 256 :: wordsToBytes rest

/-- Split a word list into 16-word blocks (the padded input is always a
multiple of 16 words; a short leftover is dropped). -/
def group16 : List Nat → List (List Nat)
  | w0 :: w1 :: w2 :: w3 :: w4 :: w5 :: w6 :: w7 ::
    w8 :: w9 :: w10 :: w11 :: w12 :: w13 :: w14 :: w15 :: rest =>
    [w0, w1, w2, w3, w4, w5, w6, w7, w8, w9, w10, w11, w12, w13, w14, w15] ::
      group16 rest
  | _ => []

/-- Extend the 16-word message schedule by `n` further words. -/
def extendSched : Nat → List Nat → List Nat
  | 0, w => w
  | n + 1, w =>
    let t := w.length
    let nw := (ssig1 (w.getD (t - 2) 0) + w.getD (t - 7) 0 +
               ssig0 (w.getD (t - 15) 0) + w.getD (t - 16) 0) % M32
    extendSched n (w ++ [nw])

/-- One SHA-256 compression round on the 8-word working state. -/
def shStep (st : List Nat) (kw : Nat × Nat) : List Nat :=
  match st with
  | [a, b, c, d, e, f, g, h] =>
    let t1 := (h + bsig1 e + shCh e f g + kw.1 + kw.2) % M32
    let t2 := (bsig0 a + shMaj a b c) % M32
    [(t1 + t2) % M32, a, b, c, (d + t1) % M32, e, f, g]
  | other => other

/-- SHA-256 compression of one 16-word block into the hash state. -/
def shCompress (h : List Nat) (block : List Nat) : List Nat :=
  let w := extendSched 48 block
  let st := (List.zip shK w).foldl shStep h
  List.zipWith (fun x y => (x + y) % M32) h st

/-- SHA-256 of a byte string, as 32 bytes. -/
def sha256 (msg : List Nat) : List Nat :=
  wordsToBytes (List.foldl shCompress shH0 (group16 (bytesToWords (shPad msg))))

/-- HMAC-SHA256 (RFC 2104) over byte strings: what node's
`crypto.createHmac('sha256', key).update(msg).digest()` returns. -/
def hmacSha256 (key msg : List Nat) : List Nat :=
  let k0 := if 64 < key.length then sha256 key else key
  let k := k0 ++ List.replicate (64 - k0.length) 0
  let ipad := k.map (fun b => b ^^^ 54)
  let opad := k.map (fun b => b ^^^ 92)
  sha256 (opad ++ sha256 (ipad ++ msg))

/-- Lowercase hex digit for a value below 16. -/
def hexDigit (n : Nat) : Char :=
  if n < 10 then Char.ofNat (48 + n) else Char.ofNat (87 + n)

/-- Lowercase hex encoding of a byte string (node's `.digest('hex')`). -/
def hexLower (bs : List Nat) : String :=
  ⟨bs.foldr (fun b acc => hexDigit (b / 16) :: hexDigit (b % 16) :: acc) []⟩

/-
Model of WHATWG `URLSearchParams` as used by `validateTelegramAuth`:
`new URLSearchParams(s)` (application/x-www-form-urlencoded parsing),
`.get`, `.sort` (stable, by UTF-16 code units of the key), `.forEach`.
-/

/-- Value of a hex digit character, if it is one. -/
def hexVal (c : Char) : Option Nat :=
  if 48 ≤ c.toNat && c.toNat ≤ 57 then some (c.toNat - 48)
  else if 65 ≤ c.toNat && c.toNat ≤ 70 then some (c.toNat - 55)
  else if 97 ≤ c.toNat && c.toNat ≤ 102 then some (c.toNat - 87)
  else none

/-- The Unicode replacement character U+FFFD. -/
def uRepl : Char := Char.ofNat 65533

/-- UTF-8 decoding with U+FFFD replacement for invalid sequences (never
fails — `URLSearchParams` never throws on malformed input).  The fuel
argument only drives the recursion; one unit is spent per byte consumed,
so `utf8Decode` below supplies the byte count. -/
def utf8DecodeF : Nat → List Nat → List Char
  | 0, _ => []
  | _, [] => []
  | n + 1, b1 :: rest =>
    if b1 < 128 then Char.ofNat b1 :: utf8DecodeF n rest
    else if 194 ≤ b1 && b1 ≤ 223 then
      match rest with
      | b2 :: r2 =>
        if 128 ≤ b2 && b2 ≤ 191 then
          Char.ofNat ((b1 - 192) * 64 + (b2 - 128)) :: utf8DecodeF n r2
        else uRepl :: utf8DecodeF n (b2 :: r2)
      | [] => [uRepl]
    else if 224 ≤ b1 && b1 ≤ 239 then
      match rest with
      | b2 :: r2 =>
        let lo2 := if b1 == 224 then 160 else 128
        let hi2 := if b1 == 237 then 159 else 191
        if lo2 ≤ b2 && b2 ≤ hi2 then
          match r2 with
          | b3 :: r3 =>
            if 128 ≤ b3 && b3 ≤ 191 then
              Char.ofNat (((b1 - 224) * 64 + (b2 - 128)) * 64 + (b3 - 128)) ::
                utf8DecodeF n r3
            else uRepl :: utf8DecodeF n (b3 :: r3)
          | [] => [uRepl]
        else uRepl :: utf8DecodeF n (b2 :: r2)
      | [] => [uRepl]
    else if 240 ≤ b1 && b1 ≤ 244 then
      match rest with
      | b2 :: r2 =>
        let lo2 := if b1 == 240 then 144 else 128
        let hi2 := if b1 == 244 then 143 else 191
        if lo2 ≤ b2 && b2 ≤ hi2 then
          match r2 with
          | b3 :: r3 =>
            if 128 ≤ b3 && b3 ≤ 191 then
              match r3 with
              | b4 :: r4 =>
                if 128 ≤ b4 && b4 ≤ 191 then
                  Char.ofNat ((((b1 - 240) * 64 + (b2 - 128)) * 64 + (b3 - 128)) * 64 +
                      (b4 - 128)) :: utf8DecodeF n r4
                else uRepl :: utf8DecodeF n (b4 :: r4)
              | [] => [uRepl]
            else uRepl :: utf8DecodeF n (b3 :: r3)
          | [] => [uRepl]
        else uRepl :: utf8DecodeF n (b2 :: r2)
      | [] => [uRepl]
    else uRepl :: utf8DecodeF n rest

/-- UTF-8 decoding of a byte string, with replacement. -/
def utf8Decode (bs : List Nat) : List Char := utf8DecodeF bs.length bs

/-- Form-urlencoded byte decoding of one component: `+` becomes a space,
`%hh` becomes a byte, an invalid escape stays literal, every other
character contributes its UTF-8 bytes.  Fueled by the character count. -/
def formBytesF : Nat → List Char → List Nat
  | 0, _ => []
  | _, [] => []
  | n + 1, '+' :: rest => 32 :: formBytesF n rest
  | n + 1, '%' :: rest =>
    match rest with
    | h1 :: h2 :: r2 =>
      match hexVal h1, hexVal h2 with
      | some a, some b => (16 * a + b) :: formBytesF n r2
      | _, _ => 37 :: formBytesF n (h1 :: h2 :: r2)
    | r2 => 37 :: formBytesF n r2
  | n + 1, c :: rest => charUtf8 c ++ formBytesF n rest

/-- Form-urlencoded byte decoding of a component. -/
def formBytes (cs : List Char) : List Nat := formBytesF cs.length cs

/-- Decode one percent-encoded component to a string. -/
def decodeComponent (cs : List Char) : String := ⟨utf8Decode (formBytes cs)⟩

/-- Split a character list on every ampersand. -/
def splitAmp : List Char → List (List Char)
  | [] => [[]]
  | '&' :: rest => [] :: splitAmp rest
  | c :: rest =>
    match splitAmp rest with
    | s :: ss => (c :: s) :: ss
    | [] => [[c]]

/-- Split a segment at its first equals sign; no equals sign means an
empty value. -/
def splitEq : List Char → List Char × List Char
  | [] => ([], [])
  | '=' :: rest => ([], rest)
  | c :: rest =>
    let kv := splitEq rest
    (c :: kv.1, kv.2)

/-- `new URLSearchParams(raw)`: strip one leading question mark, split on
ampersands, drop empty segments, split each at the first equals sign and
percent-decode both sides. -/
def parseQS (raw : String) : List (String × String) :=
  let cs :=
    match raw.data with
    | '?' :: rest => rest
    | l => l
  ((splitAmp cs).filter (fun seg => !seg.isEmpty)).map (fun seg =>
    let kv := splitEq seg
    (decodeComponent kv.1, decodeComponent kv.2))

/-- UTF-16 code units of one character. -/
def charUtf16 (c : Char) : List Nat :=
  let v := c.toNat
  if v < 65536 then [v]
  else [55296 + (v - 65536) / 1024, 56320 + (v - 65536) % 1024]

/-- UTF-16 code units of a string (the sequence JS compares when sorting
`URLSearchParams` keys). -/
def keyUnits (s : String) : List Nat :=
  s.data.foldr (fun c acc => charUtf16 c ++ acc) []

/-- Strict lexicographic order on code-unit sequences. -/
def unitsLt : List Nat → List Nat → Bool
  | [], [] => false
  | [], _ :: _ => true
  | _ :: _, [] => false
  | a :: as, b :: bs => if a < b then true else if b < a then false else unitsLt as bs

/-- Key order used by `URLSearchParams.sort()`: code-unit order of names. -/
def keyLt (a b : String) : Bool := unitsLt (keyUnits a) (keyUnits b)

/-- Stable insertion of a pair into a key-sorted list: the new pair goes
before existing pairs with an equal key only if its key is smaller, so
pairs inserted earlier stay first among equal keys. -/
def sortedInsert (p : String × String) :
    List (String × String) → List (String × String)
  | [] => [p]
  | q :: qs => if keyLt q.1 p.1 then q :: sortedInsert p qs else p :: q :: qs

/-- `URLSearchParams.sort()`: stable sort of the pairs by key. -/
def sortPairs : List (String × String) → List (String × String)
  | [] => []
  | p :: ps => sortedInsert p (sortPairs ps)

/-- `params.get(k)`: the value of the first pair named `k`, if any. -/
def getFirst (k : String) (l : List (String × String)) : Option String :=
  (l.find? (fun p => p.1 == k)).map Prod.snd

/-- One `key=value` line of the data-check string. -/
def renderPair (p : String × String) : String := p.1 ++ "=" ++ p.2

/-- The data-check string: every pair except `hash`, rendered
`key=value` and joined with a single newline (no trailing newline). -/
def checkString (l : List (String × String)) : String :=
  String.intercalate "\n" ((l.filter (fun p => p.1 != "hash")).map renderPair)

/-- Hex-encoded HMAC-SHA256 (node's `.digest('hex')`). -/
def hmacHex (key msg : List Nat) : String := hexLower (hmacSha256 key msg)

/-- The secret of the source:
`crypto.createHmac('sha256', 'WebAppData').update(TELEGRAM_BOT_TOKEN).digest()`
— HMAC keyed by the literal `"WebAppData"` with the bot token as message. -/
def tgSecret (botToken : String) : List Nat :=
  hmacSha256 (strBytes "WebAppData") (strBytes botToken)

/-- The `calculatedHash` of the source: hex HMAC-SHA256 of the data-check
string under `tgSecret`. -/
def calculatedHash (raw botToken : String) : String :=
  hmacHex (tgSecret botToken) (strBytes (checkString (sortPairs (parseQS raw))))

/-
Model of `JSON.parse` (ECMAScript / RFC 8259 grammar).  Numbers keep
their decimal mantissa and power-of-ten exponent as written (the claims
only involve integer ids, so the binary floating-point conversion is
irrelevant); object members are kept in source order; a lone surrogate
escape — not representable as a Lean `Char` — is mapped to U+FFFD.
-/

/-- JSON values. -/
inductive Json where
  | null : Json
  | bool : Bool → Json
  | num : Int → Int → Json
  | str : String → Json
  | arr : List Json → Json
  | obj : List (String × Json) → Json

/-- JSON whitespace. -/
def jsonWs (c : Char) : Bool := c == ' ' || c == '\t' || c == '\n' || c == '\r'

/-- Skip leading JSON whitespace. -/
def skipWs : List Char → List Char
  | c :: rest => if jsonWs c then skipWs rest else c :: rest
  | [] => []

/-- Body of a JSON string literal (after the opening quote), as its
characters plus the remaining input; `none` on a malformed literal. -/
def parseJStrF : Nat → List Char → Option (List Char × List Char)
  | 0, _ => none
  | _, [] => none
  | _ + 1, '"' :: rest => some ([], rest)
  | n + 1, '\\' :: 'u' :: a :: b :: c :: d :: rest =>
    match hexVal a, hexVal b, hexVal c, hexVal d with
    | some x, some y, some z, some w =>
      let u := ((x * 16 + y) * 16 + z) * 16 + w
      if 55296 ≤ u && u ≤ 56319 then
        match rest with
        | '\\' :: 'u' :: a2 :: b2 :: c2 :: d2 :: r2 =>
          match hexVal a2, hexVal b2, hexVal c2, hexVal d2 with
          | some x2, some y2, some z2, some w2 =>
            let u2 := ((x2 * 16 + y2) * 16 + z2) * 16 + w2
            if 56320 ≤ u2 && u2 ≤ 57343 then
              (parseJStrF n r2).map (fun p =>
                (Char.ofNat (65536 + (u - 55296) * 1024 + (u2 - 56320)) :: p.1, p.2))
            else
              (parseJStrF n ('\\' :: 'u' :: a2 :: b2 :: c2 :: d2 :: r2)).map (fun p =>
                (uRepl :: p.1, p.2))
          | _, _, _, _ => none
        | r2 => (parseJStrF n r2).map (fun p => (uRepl :: p.1, p.2))
      else if 56320 ≤ u && u ≤ 57343 then
        (parseJStrF n rest).map (fun p => (uRepl :: p.1, p.2))
      else
        (parseJStrF n rest).map (fun p => (Char.ofNat u :: p.1, p.2))
    | _, _, _, _ => none
  | n + 1, '\\' :: e :: rest =>
    let esc : Option Char :=
      if e == '"' then some '"'
      else if e == '\\' then some '\\'
      else if e == '/' then some '/'
      else if e == 'b' then some (Char.ofNat 8)
      else if e == 'f' then some (Char.ofNat 12)
      else if e == 'n' then some '\n'
      else if e == 'r' then some '\r'
      else if e == 't' then some '\t'
      else none
    match esc with
    | some ch => (parseJStrF n rest).map (fun p => (ch :: p.1, p.2))
    | none => none
  | n + 1, ch :: rest =>
    if ch.toNat < 32 then none
    else (parseJStrF n rest).map (fun p => (ch :: p.1, p.2))

/-- Decimal digit value, if any. -/
def digVal (c : Char) : Option Nat :=
  if 48 ≤ c.toNat && c.toNat ≤ 57 then some (c.toNat - 48) else none

/-- Take a maximal run of decimal digits. -/
def takeDigits : List Char → List Nat × List Char
  | [] => ([], [])
  | c :: rest =>
    match digVal c with
    | some d =>
      let p := takeDigits rest
      (d :: p.1, p.2)
    | none => ([], c :: rest)

/-- Natural number denoted by a digit run. -/
def digitsToNat (ds : List Nat) : Nat := ds.foldl (fun acc d => acc * 10 + d) 0

/-- JSON number literal: optional minus, integer part without a leading
zero, optional fraction, optional exponent. -/
def parseJNum (cs : List Char) : Option (Json × List Char) :=
  let sg :=
    match cs with
    | '-' :: rest => (true, rest)
    | _ => (false, cs)
  match takeDigits sg.2 with
  | ([], _) => none
  | (intDs, r1) =>
    if 1 < intDs.length && intDs.headD 0 == 0 then none
    else
      let fracPart : Option (List Nat × List Char) :=
        match r1 with
        | '.' :: r =>
          match takeDigits r with
          | ([], _) => none
          | (ds, rr) => some (ds, rr)
        | _ => some ([], r1)
      match fracPart with
      | none => none
      | some (fracDs, r2) =>
        let expPart : Option (Int × List Char) :=
          match r2 with
          | e :: r =>
            if e == 'e' || e == 'E' then
              let sr : Int × List Char :=
                match r with
                | '+' :: rr => (1, rr)
                | '-' :: rr => (-1, rr)
                | _ => (1, r)
              match takeDigits sr.2 with
              | ([], _) => none
              | (ds, rr) => some (sr.1 * Int.ofNat (digitsToNat ds), rr)
            else some (0, e :: r)
          | [] => some (0, [])
        match expPart with
        | none => none
        | some (ex, r4) =>
          let mantNat := digitsToNat (intDs ++ fracDs)
          let mant : Int := if sg.1 then -Int.ofNat mantNat else Int.ofNat mantNat
          some (Json.num mant (ex - Int.ofNat fracDs.length), r4)

mutual

/-- JSON value parser (fueled recursive descent). -/
def parseJVal : Nat → List Char → Option (Json × List Char)
  | 0, _ => none
  | n + 1, cs =>
    match skipWs cs with
    | 'n' :: 'u' :: 'l' :: 'l' :: rest => some (Json.null, rest)
    | 't' :: 'r' :: 'u' :: 'e' :: rest => some (Json.bool true, rest)
    | 'f' :: 'a' :: 'l' :: 's' :: 'e' :: rest => some (Json.bool false, rest)
    | '"' :: rest => (parseJStrF (rest.length + 1) rest).map (fun p => (Json.str ⟨p.1⟩, p.2))
    | '[' :: rest =>
      match skipWs rest with
      | ']' :: r2 => some (Json.arr [], r2)
      | r2 =>
        match parseJItems n r2 with
        | some (xs, r3) => some (Json.arr xs, r3)
        | none => none
    | '\x7b' :: rest =>
      match skipWs rest with
      | '\x7d' :: r2 => some (Json.obj [], r2)
      | r2 =>
        match parseJMembers n r2 with
        | some (ms, r3) => some (Json.obj ms, r3)
        | none => none
    | rest => parseJNum rest

/-- Comma-separated JSON array items up to the closing bracket. -/
def parseJItems : Nat → List Char → Option (List Json × List Char)
  | 0, _ => none
  | n + 1, cs =>
    match parseJVal n cs with
    | none => none
    | some (v, r1) =>
      match skipWs r1 with
      | ',' :: r2 =>
        match parseJItems n r2 with
        | some (vs, r3) => some (v :: vs, r3)
        | none => none
      | ']' :: r2 => some ([v], r2)
      | _ => none

/-- Comma-separated JSON object members up to the closing brace. -/
def parseJMembers : Nat → List Char → Option (List (String × Json) × List Char)
  | 0, _ => none
  | n + 1, cs =>
    match skipWs cs with
    | '"' :: r1 =>
      match parseJStrF (r1.length + 1) r1 with
      | none => none
      | some (k, r2) =>
        match skipWs r2 with
        | ':' :: r3 =>
          match parseJVal n r3 with
          | none => none
          | some (v, r4) =>
            match skipWs r4 with
            | ',' :: r5 =>
              match parseJMembers n r5 with
              | some (ms, r6) => some ((⟨k⟩, v) :: ms, r6)
              | none => none
            | '\x7d' :: r5 => some ([(⟨k⟩, v)], r5)
            | _ => none
        | _ => none
    | _ => none

end

/-- `JSON.parse`: parse one value, allow trailing whitespace only. -/
def jsonParse (s : String) : Option Json :=
  match parseJVal (2 * s.length + 2) s.data with
  | some (v, rest) => if (skipWs rest).isEmpty then some v else none
  | none => none

/-
The middleware itself.  Its observable outcome is either the HTTP error
response it sends (`res.status(code).json(\x7b error: msg \x7d)`), or
success (`req.user = ...; next()`), or an uncaught exception escaping the
middleware.
-/

/-- Observable outcome of one `validateTelegramAuth` invocation. -/
inductive AuthOutcome where
  | reject : Nat → String → AuthOutcome
  | ok : Json → AuthOutcome
  | thrown : AuthOutcome

/-- Whether an outcome is an uncaught exception. -/
def isThrown : AuthOutcome → Bool
  | AuthOutcome.thrown => true
  | _ => false

/-- `validateTelegramAuth` of `src/server.js` (lines 21-38): no
try/catch and no user-presence check; `JSON.parse(initData.get('user'))`
with an absent `user` parses the coerced string `"null"` to `null`, and
with malformed JSON throws out of the middleware. -/
def validateTelegramAuthServer (authHeader : Option String) (botToken : String) :
    AuthOutcome :=
  match authHeader with
  | none => AuthOutcome.reject 401 "Not authorized: Missing Telegram InitData"
  | some raw =>
    let initData := parseQS raw
    let hash := getFirst "hash" initData
    let sorted := sortPairs initData
    let dataToCheck := checkString sorted
    let calcHash := hmacHex (tgSecret botToken) (strBytes dataToCheck)
    if some calcHash ≠ hash then AuthOutcome.reject 403 "Not authorized: Invalid hash"
    else
      match getFirst "user" sorted with
      | none => AuthOutcome.ok Json.null
      | some u =>
        match jsonParse u with
        | some v => AuthOutcome.ok v
        | none => AuthOutcome.thrown

/-- Body of `validateTelegramAuth` of `src/index.js` (lines 33-69, also
`src/unnamed/part_002`): like the server.js version but with an explicit
user-presence check (`if (!user)`, which is also taken for the falsy
empty string) before `JSON.parse`. -/
def validateTelegramAuthIndexBody (authHeader : Option String) (botToken : String) :
    AuthOutcome :=
  match authHeader with
  | none => AuthOutcome.reject 401 "Not authorized: Missing Telegram InitData"
  | some raw =>
    let initData := parseQS raw
    let hash := getFirst "hash" initData
    let sorted := sortPairs initData
    let dataToCheck := checkString sorted
    let calcHash := hmacHex (tgSecret botToken) (strBytes dataToCheck)
    if some calcHash ≠ hash then AuthOutcome.reject 403 "Not authorized: Invalid hash"
    else
      match getFirst "user" sorted with
      | none => AuthOutcome.reject 400 "Invalid initData: user missing"
      | some u =>
        if u = "" then AuthOutcome.reject 400 "Invalid initData: user missing"
        else
          match jsonParse u with
          | some v => AuthOutcome.ok v
          | none => AuthOutcome.thrown

/-- `validateTelegramAuth` of `src/index.js`: the body wrapped in its
try/catch, which turns the only throwing step (`JSON.parse`) into a 400
response. -/
def validateTelegramAuthIndex (authHeader : Option String) (botToken : String) :
    AuthOutcome :=
  match validateTelegramAuthIndexBody authHeader botToken with
  | AuthOutcome.thrown => AuthOutcome.reject 400 "Invalid initData format or hash"
  | r => r

/-- Reference signing-key derivation following the words of the spec:
HMAC-SHA256 over the literal byte string `"WebAppData"` as the message,
using `botToken` as the HMAC key. -/
def specSigningKey (botToken : String) : List Nat :=
  hmacSha256 (strBytes botToken) (strBytes "WebAppData")

/-- Reference candidate hash following the words of the spec: HMAC-SHA256
of the check-string under `specSigningKey`, hex-encoded lowercase. -/
def specCandidateHash (raw botToken : String) : String :=
  hmacHex (specSigningKey botToken) (strBytes (checkString (sortPairs (parseQS raw))))

/-- Amended reference signing-key derivation: HMAC-SHA256 with the
literal byte string `"WebAppData"` as the HMAC key and `botToken` as the
message (the argument order the code actually uses). -/
def amendedSigningKey (botToken : String) : List Nat :=
  hmacSha256 (strBytes "WebAppData") (strBytes botToken)

/-- Amended reference candidate hash: HMAC-SHA256 of the check-string
under `amendedSigningKey`, hex-encoded lowercase. -/
def amendedCandidateHash (raw botToken : String) : String :=
  hmacHex (amendedSigningKey botToken) (strBytes (checkString (sortPairs (parseQS raw))))

/-- A lowercase hexadecimal character (digit or `a`-`f`). -/
def isHexLowerChar (c : Char) : Bool :=
  (48 ≤ c.toNat && c.toNat ≤ 57) || (97 ≤ c.toNat && c.toNat ≤ 102)

/-
Validation of the embedding on known values: FIPS/RFC test vectors for
SHA-256 and HMAC-SHA256, and concrete behaviours of the URLSearchParams
and JSON.parse models.
-/

example : hexLower (sha256 (strBytes "abc")) =
    "ba7816bf8f01cfea414140de5dae2223b00361a396177a9cb410ff61f20015ad" := by decide
example : hexLower (sha256 []) =
    "e3b0c44298fc1c149afbf4c8996fb92427ae41e4649b934ca495991b7852b855" := by decide
example : hexLower (hmacSha256 (strBytes "key")
      (strBytes "The quick brown fox jumps over the lazy dog")) =
    "f7bc83f430538424b13298e6aa6fb143ef4d59a14946175997479dbc2d1a3cd8" := by decide
example : parseQS "a=1&b=%41+c" = [("a", "1"), ("b", "A c")] := by decide
example : sortPairs [("b", "2"), ("a", "1"), ("a", "0")] =
    [("a", "1"), ("a", "0"), ("b", "2")] := by decide
example : checkString [("a", "1"), ("hash", "xx"), ("b", "2")] = "a=1\nb=2" := by decide
example : jsonParse "null" = some Json.null := rfl
example : jsonParse "\x7b\"id\":42,\"username\":\"alice\"\x7d" =
    some (Json.obj [("id", Json.num 42 0), ("username", Json.str "alice")]) := rfl
example : jsonParse "\x7b" = none := rfl
example : jsonParse "x" = none := rfl
example : jsonParse " [1, -2.5e1, \"a\\n\", true] " =
    some (Json.arr [Json.num 1 0, Json.num (-25) 0, Json.str "a\n",
      Json.bool true]) := rfl

/-
Helper lemmas.
-/

lemma wordsToBytes_length (ws : List Nat) : (wordsToBytes ws).length = 4 * ws.length := by
  induction ws with
  | nil => rfl
  | cons w rest ih => simp [wordsToBytes, ih]; ring

lemma wordsToBytes_lt (ws : List Nat) : ∀ b ∈ wordsToBytes ws, b < 256 := by
  induction ws with
  | nil => intro b hb; cases hb
  | cons w rest ih =>
    intro b hb
    simp only [wordsToBytes, List.mem_cons] at hb
    rcases hb with h | h | h | h | h
    · omega
    · omega
    · omega
    · omega
    · exact ih b h

lemma shStep_length (st : List Nat) (kw : Nat × Nat) : (shStep st kw).length = st.length := by
  unfold shStep
  split
  · simp
  · rfl

lemma foldl_shStep_length (l : List (Nat × Nat)) :
    ∀ st : List Nat, (l.foldl shStep st).length = st.length := by
  induction l with
  | nil => intro st; rfl
  | cons x xs ih => intro st; rw [List.foldl_cons, ih, shStep_length]

lemma shCompress_length (h b : List Nat) : (shCompress h b).length = h.length := by
  unfold shCompress
  rw [List.length_zipWith, foldl_shStep_length]
  omega

lemma foldl_shCompress_length (blocks : List (List Nat)) :
    ∀ h : List Nat, (blocks.foldl shCompress h).length = h.length := by
  induction blocks with
  | nil => intro h; rfl
  | cons b bs ih => intro h; rw [List.foldl_cons, ih, shCompress_length]

lemma sha256_length (msg : List Nat) : (sha256 msg).length = 32 := by
  unfold sha256
  rw [wordsToBytes_length, foldl_shCompress_length]
  rfl

lemma sha256_lt (msg : List Nat) : ∀ b ∈ sha256 msg, b < 256 := by
  unfold sha256
  exact wordsToBytes_lt _

lemma hmacSha256_length (key msg : List Nat) : (hmacSha256 key msg).length = 32 := by
  unfold hmacSha256
  exact sha256_length _

lemma hmacSha256_lt (key msg : List Nat) : ∀ b ∈ hmacSha256 key msg, b < 256 := by
  unfold hmacSha256
  exact sha256_lt _

lemma hexDigit_isHexLower : ∀ n, n < 16 → isHexLowerChar (hexDigit n) = true := by decide

lemma hexLower_length (bs : List Nat) : (hexLower bs).length = 2 * bs.length := by
  show (List.foldr (fun b acc => hexDigit (b / 16) :: hexDigit (b % 16) :: acc)
    [] bs).length = 2 * bs.length
  induction bs with
  | nil => rfl
  | cons b rest ih => simp only [List.foldr_cons, List.length_cons] at ih ⊢; omega

lemma hexLower_chars (bs : List Nat) (hbs : ∀ b ∈ bs, b < 256) :
    ∀ c ∈ (hexLower bs).data, isHexLowerChar c = true := by
  show ∀ c ∈ List.foldr (fun b acc => hexDigit (b / 16) :: hexDigit (b % 16) :: acc) [] bs,
    isHexLowerChar c = true
  induction bs with
  | nil => intro c hc; cases hc
  | cons b rest ih =>
    intro c hc
    simp only [List.foldr_cons, List.mem_cons] at hc
    have hb : b < 256 := hbs b (List.mem_cons_self b rest)
    rcases hc with rfl | rfl | hc
    · exact hexDigit_isHexLower (b / 16) (by omega)
    · exact hexDigit_isHexLower (b % 16) (by omega)
    · exact ih (fun x hx => hbs x (List.mem_cons_of_mem b hx)) c hc

lemma calculatedHash_length (raw tok : String) : (calculatedHash raw tok).length = 64 := by
  unfold calculatedHash hmacHex
  rw [hexLower_length, hmacSha256_length]

lemma calculatedHash_chars (raw tok : String) :
    ∀ c ∈ (calculatedHash raw tok).data, isHexLowerChar c = true := by
  unfold calculatedHash hmacHex
  exact hexLower_chars _ (hmacSha256_lt _ _)

lemma server_eq_body (raw tok : String) :
    validateTelegramAuthServer (some raw) tok =
      if some (calculatedHash raw tok) ≠ getFirst "hash" (parseQS raw) then
        AuthOutcome.reject 403 "Not authorized: Invalid hash"
      else
        match getFirst "user" (sortPairs (parseQS raw)) with
        | none => AuthOutcome.ok Json.null
        | some u =>
          match jsonParse u with
          | some v => AuthOutcome.ok v
          | none => AuthOutcome.thrown := rfl

lemma indexBody_eq_body (raw tok : String) :
    validateTelegramAuthIndexBody (some raw) tok =
      if some (calculatedHash raw tok) ≠ getFirst "hash" (parseQS raw) then
        AuthOutcome.reject 403 "Not authorized: Invalid hash"
      else
        match getFirst "user" (sortPairs (parseQS raw)) with
        | none => AuthOutcome.reject 400 "Invalid initData: user missing"
        | some u =>
          if u = "" then AuthOutcome.reject 400 "Invalid initData: user missing"
          else
            match jsonParse u with
            | some v => AuthOutcome.ok v
            | none => AuthOutcome.thrown := rfl

lemma noHash_server (raw tok : String) (h : getFirst "hash" (parseQS raw) = none) :
    validateTelegramAuthServer (some raw) tok =
      AuthOutcome.reject 403 "Not authorized: Invalid hash" := by
  rw [server_eq_body, h]
  simp

lemma noHash_index (raw tok : String) (h : getFirst "hash" (parseQS raw) = none) :
    validateTelegramAuthIndex (some raw) tok =
      AuthOutcome.reject 403 "Not authorized: Invalid hash" := by
  unfold validateTelegramAuthIndex
  rw [indexBody_eq_body, h]
  simp

lemma sortedInsert_perm (p : String × String) :
    ∀ l, List.Perm (sortedInsert p l) (p :: l) := by
  intro l
  induction l with
  | nil => exact List.Perm.refl _
  | cons q qs ih =>
    unfold sortedInsert
    split
    · exact (ih.cons q).trans (List.Perm.swap p q qs)
    · exact List.Perm.refl _

lemma sortPairs_perm : ∀ l, List.Perm (sortPairs l) l := by
  intro l
  induction l with
  | nil => exact List.Perm.refl _
  | cons p ps ih =>
    unfold sortPairs
    exact (sortedInsert_perm p _).trans (ih.cons p)

lemma unitsLt_asymm : ∀ a b : List Nat, unitsLt a b = true → unitsLt b a = true → False := by
  intro a
  induction a with
  | nil =>
    intro b h1 h2
    cases b with
    | nil => simp [unitsLt] at h1
    | cons y ys => simp [unitsLt] at h2
  | cons x xs ih =>
    intro b h1 h2
    cases b with
    | nil => simp [unitsLt] at h1
    | cons y ys =>
      simp only [unitsLt] at h1 h2
      by_cases hxy : x < y
      · rw [if_neg (show ¬ y < x by omega), if_pos hxy] at h2
        exact Bool.noConfusion h2
      · by_cases hyx : y < x
        · rw [if_neg hxy, if_pos hyx] at h1
          exact Bool.noConfusion h1
        · rw [if_neg hxy, if_neg hyx] at h1
          rw [if_neg hyx, if_neg hxy] at h2
          exact ih ys h1 h2

lemma unitsLt_conn : ∀ a b : List Nat, unitsLt a b = false → unitsLt b a = false → a = b := by
  intro a
  induction a with
  | nil =>
    intro b h1 _
    cases b with
    | nil => rfl
    | cons y ys => simp [unitsLt] at h1
  | cons x xs ih =>
    intro b h1 h2
    cases b with
    | nil => simp [unitsLt] at h2
    | cons y ys =>
      simp only [unitsLt] at h1 h2
      by_cases hxy : x < y
      · rw [if_pos hxy] at h1
        exact Bool.noConfusion h1
      · by_cases hyx : y < x
        · rw [if_pos hyx] at h2
          exact Bool.noConfusion h2
        · rw [if_neg hxy, if_neg hyx] at h1
          rw [if_neg hyx, if_neg hxy] at h2
          have hxey : x = y := by omega
          rw [hxey, ih ys h1 h2]

lemma unitsLt_trans : ∀ a b c : List Nat, unitsLt a b = true → unitsLt b c = true →
    unitsLt a c = true := by
  intro a
  induction a with
  | nil =>
    intro b c h1 h2
    cases b with
    | nil => simp [unitsLt] at h1
    | cons y ys =>
      cases c with
      | nil => simp [unitsLt] at h2
      | cons z zs => simp [unitsLt]
  | cons x xs ih =>
    intro b c h1 h2
    cases b with
    | nil => simp [unitsLt] at h1
    | cons y ys =>
      cases c with
      | nil => simp [unitsLt] at h2
      | cons z zs =>
        simp only [unitsLt] at h1 h2 ⊢
        by_cases hxy : x < y
        · by_cases hyz : y < z
          · rw [if_pos (show x < z by omega)]
          · by_cases hzy : z < y
            · rw [if_neg hyz, if_pos hzy] at h2
              exact Bool.noConfusion h2
            · have : y = z := by omega
              rw [if_pos (show x < z by omega)]
        · by_cases hyx : y < x
          · rw [if_neg hxy, if_pos hyx] at h1
            exact Bool.noConfusion h1
          · have hxey : x = y := by omega
            by_cases hyz : y < z
            · rw [if_pos (show x < z by omega)]
            · by_cases hzy : z < y
              · rw [if_neg hyz, if_pos hzy] at h2
                exact Bool.noConfusion h2
              · have hyez : y = z := by omega
                rw [if_neg (show ¬ x < z by omega), if_neg (show ¬ z < x by omega)]
                rw [if_neg hxy, if_neg hyx] at h1
                rw [if_neg hyz, if_neg hzy] at h2
                exact ih ys zs h1 h2

lemma keyLe_trans (a b c : String) (h1 : keyLt b a = false) (h2 : keyLt c b = false) :
    keyLt c a = false := by
  unfold keyLt at h1 h2 ⊢
  by_cases hca : unitsLt (keyUnits c) (keyUnits a) = true
  · by_cases hbc : unitsLt (keyUnits b) (keyUnits c) = true
    · rw [unitsLt_trans _ _ _ hbc hca] at h1
      exact Bool.noConfusion h1
    · have hbc' : unitsLt (keyUnits b) (keyUnits c) = false := by
        cases hv : unitsLt (keyUnits b) (keyUnits c)
        · rfl
        · exact absurd hv hbc
      have : unitsLt (keyUnits c) (keyUnits b) = false := h2
      rw [unitsLt_conn _ _ this hbc'] at hca
      rw [hca] at h1
      exact Bool.noConfusion h1
  · cases hv : unitsLt (keyUnits c) (keyUnits a)
    · rfl
    · exact absurd hv hca

lemma keyLt_asymm_false (a b : String) (h : keyLt a b = true) : keyLt b a = false := by
  unfold keyLt at h ⊢
  cases hv : unitsLt (keyUnits b) (keyUnits a)
  · rfl
  · exact (unitsLt_asymm _ _ h hv).elim

lemma sortedInsert_pairwise (p : String × String) (l : List (String × String))
    (h : l.Pairwise (fun a b => keyLt b.1 a.1 = false)) :
    (sortedInsert p l).Pairwise (fun a b => keyLt b.1 a.1 = false) := by
  induction l with
  | nil => simp [sortedInsert]
  | cons q qs ih =>
    rw [List.pairwise_cons] at h
    obtain ⟨hq, hqs⟩ := h
    unfold sortedInsert
    split
    · rename_i hqp
      rw [List.pairwise_cons]
      constructor
      · intro x hx
        rw [(sortedInsert_perm p qs).mem_iff, List.mem_cons] at hx
        rcases hx with rfl | hx
        · exact keyLt_asymm_false _ _ hqp
        · exact hq x hx
      · exact ih hqs
    · rename_i hqp
      have hqp' : keyLt q.1 p.1 = false := by
        cases hv : keyLt q.1 p.1
        · rfl
        · exact absurd hv hqp
      rw [List.pairwise_cons]
      constructor
      · intro x hx
        rcases List.mem_cons.mp hx with rfl | hx
        · exact hqp'
        · exact keyLe_trans _ _ _ hqp' (hq x hx)
      · rw [List.pairwise_cons]
        exact ⟨hq, hqs⟩

lemma sortPairs_pairwise (l : List (String × String)) :
    (sortPairs l).Pairwise (fun a b => keyLt b.1 a.1 = false) := by
  induction l with
  | nil => simp [sortPairs]
  | cons p ps ih =>
    unfold sortPairs
    exact sortedInsert_pairwise p _ ih

lemma sortPairs_strict_pairwise (l : List (String × String))
    (hnd : (l.map (fun p => keyUnits p.1)).Nodup) :
    (sortPairs l).Pairwise (fun a b => unitsLt (keyUnits a.1) (keyUnits b.1) = true) := by
  have hnd' : ((sortPairs l).map (fun p => keyUnits p.1)).Nodup :=
    (((sortPairs_perm l).map (fun p => keyUnits p.1)).nodup_iff).mpr hnd
  have hne : (sortPairs l).Pairwise (fun a b => keyUnits a.1 ≠ keyUnits b.1) :=
    List.pairwise_map.mp hnd'
  have hcomb := (sortPairs_pairwise l).and hne
  refine hcomb.imp ?_
  intro a b hab
  obtain ⟨hle, hneq⟩ := hab
  cases hv : unitsLt (keyUnits a.1) (keyUnits b.1)
  · exact absurd (unitsLt_conn _ _ hv hle) hneq
  · rfl

lemma sortPairs_eq_of_perm (l₁ l₂ : List (String × String)) (hp : List.Perm l₁ l₂)
    (hnd : (l₁.map (fun p => keyUnits p.1)).Nodup) :
    sortPairs l₁ = sortPairs l₂ := by
  have hnd₂ : (l₂.map (fun p => keyUnits p.1)).Nodup :=
    ((hp.map (fun p => keyUnits p.1)).nodup_iff).mp hnd
  haveI : IsAntisymm (String × String)
      (fun a b => unitsLt (keyUnits a.1) (keyUnits b.1) = true) :=
    ⟨fun a b h1 h2 => (unitsLt_asymm _ _ h1 h2).elim⟩
  exact List.eq_of_perm_of_sorted
    ((sortPairs_perm l₁).trans (hp.trans (sortPairs_perm l₂).symm))
    (sortPairs_strict_pairwise l₁ hnd) (sortPairs_strict_pairwise l₂ hnd₂)

lemma getFirst_eq_of_perm (k : String) (l₁ l₂ : List (String × String))
    (hp : List.Perm l₁ l₂) (hnd : (l₁.map Prod.fst).Nodup) :
    getFirst k l₁ = getFirst k l₂ := by
  unfold getFirst
  have heq : l₁.find? (fun p => p.1 == k) = l₂.find? (fun p => p.1 == k) := by
    cases h₁ : l₁.find? (fun p => p.1 == k) with
    | none =>
      cases h₂ : l₂.find? (fun p => p.1 == k) with
      | none => rfl
      | some p =>
        have hm : p ∈ l₁ := hp.mem_iff.mpr (List.mem_of_find?_eq_some h₂)
        exact absurd (List.find?_some h₂) (List.find?_eq_none.mp h₁ p hm)
    | some p =>
      cases h₂ : l₂.find? (fun q => q.1 == k) with
      | none =>
        have hm : p ∈ l₂ := hp.mem_iff.mp (List.mem_of_find?_eq_some h₁)
        exact absurd (List.find?_some h₁) (List.find?_eq_none.mp h₂ p hm)
      | some q =>
        have hp₁ : p ∈ l₁ := List.mem_of_find?_eq_some h₁
        have hq₁ : q ∈ l₁ := hp.mem_iff.mpr (List.mem_of_find?_eq_some h₂)
        have hbp := List.find?_some h₁
        have hbq := List.find?_some h₂
        have hpk : p.1 = k := beq_iff_eq.mp hbp
        have hqk : q.1 = k := beq_iff_eq.mp hbq
        have : p = q :=
          List.inj_on_of_nodup_map hnd hp₁ hq₁ (by rw [hpk, hqk])
        rw [this]
  rw [heq]

lemma indexBody_reject_cases (raw tok : String) (s : Nat) (m : String)
    (h : validateTelegramAuthIndexBody (some raw) tok = AuthOutcome.reject s m) :
    (s = 403 ∧ m = "Not authorized: Invalid hash") ∨
    (s = 400 ∧ m = "Invalid initData: user missing") := by
  rw [indexBody_eq_body] at h
  split at h
  · injection h with h1 h2
    exact Or.inl ⟨h1.symm, h2.symm⟩
  · split at h
    · injection h with h1 h2
      exact Or.inr ⟨h1.symm, h2.symm⟩
    · split at h
      · injection h with h1 h2
        exact Or.inr ⟨h1.symm, h2.symm⟩
      · split at h
        · exact AuthOutcome.noConfusion h
        · exact AuthOutcome.noConfusion h

/-
Claim theorems.
-/

/-- Claim C1, counterexample: deriving the signing key as the spec says —
HMAC-SHA256 over the literal message `"WebAppData"` with `botToken` as
the key — yields a candidate hash different from the one the code
computes (`crypto.createHmac('sha256', 'WebAppData').update(botToken)`
keys the HMAC with `"WebAppData"` and uses the token as the message). -/
theorem claimC1_counterexample :
    specCandidateHash "auth_date=1700000000" "BOT123" ≠
      calculatedHash "auth_date=1700000000" "BOT123" := by
  decide

/-- Claim C1, amended: the signing key is HMAC-SHA256 with key the
literal byte string `"WebAppData"` and message `botToken`; the candidate
hash is HMAC-SHA256 of the check-string under that key, hex-encoded
lowercase; for every rawBlob and botToken the verifier computes exactly
this candidate, and the server.js verifier rejects with its invalid-hash
response exactly when the blob's `hash` differs from it. -/
theorem claimC1_theorem (raw tok : String) :
    calculatedHash raw tok = amendedCandidateHash raw tok ∧
    (validateTelegramAuthServer (some raw) tok =
        AuthOutcome.reject 403 "Not authorized: Invalid hash" ↔
      getFirst "hash" (parseQS raw) ≠ some (amendedCandidateHash raw tok)) := by
  constructor
  · rfl
  · rw [server_eq_body]
    constructor
    · intro h hcontra
      rw [show amendedCandidateHash raw tok = calculatedHash raw tok from rfl] at hcontra
      rw [hcontra] at h
      rw [if_neg (by simp)] at h
      split at h
      · exact AuthOutcome.noConfusion h
      · split at h
        · exact AuthOutcome.noConfusion h
        · exact AuthOutcome.noConfusion h
    · intro h
      have hcond : some (calculatedHash raw tok) ≠ getFirst "hash" (parseQS raw) := by
        rw [show calculatedHash raw tok = amendedCandidateHash raw tok from rfl]
        exact fun hc => h hc.symm
      rw [if_pos hcond]

/-- Claim C2, counterexample: a blob with no `hash` pair is answered with
the invalid-hash response (403), not any missing-hash variant — the code
has no missing-hash check at all. -/
theorem claimC2_counterexample :
    validateTelegramAuthIndex (some "auth_date=1") "BOT123" =
      AuthOutcome.reject 403 "Not authorized: Invalid hash" :=
  noHash_index "auth_date=1" "BOT123" (by decide)

/-- Claim C2, amended: a rawBlob containing no `hash` pair fails, but
with the invalid-hash (`InvalidSignature`) response `403 Not authorized:
Invalid hash`, in both verifier versions; there is no distinct
missing-hash variant. -/
theorem claimC2_theorem (raw tok : String)
    (h : getFirst "hash" (parseQS raw) = none) :
    validateTelegramAuthServer (some raw) tok =
      AuthOutcome.reject 403 "Not authorized: Invalid hash" ∧
    validateTelegramAuthIndex (some raw) tok =
      AuthOutcome.reject 403 "Not authorized: Invalid hash" :=
  ⟨noHash_server raw tok h, noHash_index raw tok h⟩

/-- Claim C2, witness. -/
theorem claimC2_witness :
    getFirst "hash" (parseQS "user=%7B%7D") = none ∧
    (validateTelegramAuthServer (some "user=%7B%7D") "BOT123" =
      AuthOutcome.reject 403 "Not authorized: Invalid hash" ∧
    validateTelegramAuthIndex (some "user=%7B%7D") "BOT123" =
      AuthOutcome.reject 403 "Not authorized: Invalid hash") :=
  ⟨by decide, claimC2_theorem "user=%7B%7D" "BOT123" (by decide)⟩

/-- Claim C6: the check-string for the blob with fields
`auth_date=1700000000` and `user=\x7b"id":42,"username":"alice"\x7d` is the
`auth_date` line, one newline, then the `user` line, with no trailing
newline — and the same string results when the raw blob lists `user`
first, since the keys are sorted. -/
theorem claimC6_theorem :
    checkString (sortPairs (parseQS
        "auth_date=1700000000&user=%7B%22id%22%3A42%2C%22username%22%3A%22alice%22%7D&hash=abc")) =
      "auth_date=1700000000\nuser=\x7b\"id\":42,\"username\":\"alice\"\x7d" ∧
    checkString (sortPairs (parseQS
        "user=%7B%22id%22%3A42%2C%22username%22%3A%22alice%22%7D&hash=abc&auth_date=1700000000")) =
      "auth_date=1700000000\nuser=\x7b\"id\":42,\"username\":\"alice\"\x7d" :=
  ⟨by decide, by decide⟩

/-- Claim C9: a rawBlob with no `hash` key is always rejected by both
verifier versions, and the computed candidate hash is always a
64-character lowercase-hex string (so it can never equal an absent
value). -/
theorem claimC9_theorem (raw tok : String)
    (h : getFirst "hash" (parseQS raw) = none) :
    validateTelegramAuthServer (some raw) tok =
      AuthOutcome.reject 403 "Not authorized: Invalid hash" ∧
    validateTelegramAuthIndex (some raw) tok =
      AuthOutcome.reject 403 "Not authorized: Invalid hash" ∧
    (calculatedHash raw tok).length = 64 ∧
    (∀ c ∈ (calculatedHash raw tok).data, isHexLowerChar c = true) :=
  ⟨noHash_server raw tok h, noHash_index raw tok h,
   calculatedHash_length raw tok, calculatedHash_chars raw tok⟩

/-- Claim C9, witness. -/
theorem claimC9_witness :
    getFirst "hash" (parseQS "auth_date=1") = none ∧
    (validateTelegramAuthServer (some "auth_date=1") "BOT123" =
      AuthOutcome.reject 403 "Not authorized: Invalid hash" ∧
    validateTelegramAuthIndex (some "auth_date=1") "BOT123" =
      AuthOutcome.reject 403 "Not authorized: Invalid hash" ∧
    (calculatedHash "auth_date=1" "BOT123").length = 64 ∧
    (∀ c ∈ (calculatedHash "auth_date=1" "BOT123").data, isHexLowerChar c = true)) :=
  ⟨by decide, claimC9_theorem "auth_date=1" "BOT123" (by decide)⟩

/-- Claim C3, counterexample: the server.js verifier has no user-presence
check — on a correctly signed blob with no `user` field it succeeds and
installs the `null` identity (`JSON.parse(null)` parses the coerced
string `"null"`), rather than failing with any missing-user variant. -/
theorem claimC3_counterexample :
    validateTelegramAuthServer
      (some "auth_date=1700000000&hash=eb6319a27296c3b0768ea7602e53f447495d259d7fe0ac15948aa061b1920726")
      "BOT123" = AuthOutcome.ok Json.null := rfl

/-- Claim C3, amended: on a rawBlob with a valid `hash` over the
remaining fields but no `user` field, the index.js verifier fails with
its missing-user response (`400 Invalid initData: user missing`), while
the server.js verifier succeeds with a `null` identity. -/
theorem claimC3_theorem (raw tok : String)
    (hh : getFirst "hash" (parseQS raw) = some (calculatedHash raw tok))
    (hu : getFirst "user" (sortPairs (parseQS raw)) = none) :
    validateTelegramAuthIndex (some raw) tok =
      AuthOutcome.reject 400 "Invalid initData: user missing" ∧
    validateTelegramAuthServer (some raw) tok = AuthOutcome.ok Json.null := by
  constructor
  · unfold validateTelegramAuthIndex
    rw [indexBody_eq_body, hh, if_neg (by simp), hu]
  · rw [server_eq_body, hh, if_neg (by simp), hu]

/-- Claim C3, witness. -/
theorem claimC3_witness :
    (getFirst "hash" (parseQS "auth_date=1700000000&hash=eb6319a27296c3b0768ea7602e53f447495d259d7fe0ac15948aa061b1920726") =
        some (calculatedHash "auth_date=1700000000&hash=eb6319a27296c3b0768ea7602e53f447495d259d7fe0ac15948aa061b1920726" "BOT123") ∧
      getFirst "user" (sortPairs (parseQS "auth_date=1700000000&hash=eb6319a27296c3b0768ea7602e53f447495d259d7fe0ac15948aa061b1920726")) = none) ∧
    (validateTelegramAuthIndex
        (some "auth_date=1700000000&hash=eb6319a27296c3b0768ea7602e53f447495d259d7fe0ac15948aa061b1920726")
        "BOT123" = AuthOutcome.reject 400 "Invalid initData: user missing" ∧
      validateTelegramAuthServer
        (some "auth_date=1700000000&hash=eb6319a27296c3b0768ea7602e53f447495d259d7fe0ac15948aa061b1920726")
        "BOT123" = AuthOutcome.ok Json.null) :=
  ⟨⟨by decide, by decide⟩,
   claimC3_theorem
     "auth_date=1700000000&hash=eb6319a27296c3b0768ea7602e53f447495d259d7fe0ac15948aa061b1920726"
     "BOT123" (by decide) (by decide)⟩

/-- Claim C4, counterexample: two failing inputs — a missing credential
and a blob without `hash` — receive different client-facing responses
(401 with one message vs 403 with another), so the failure responses are
not one identical generic unauthorized outcome. -/
theorem claimC4_counterexample :
    validateTelegramAuthIndex none "BOT123" =
      AuthOutcome.reject 401 "Not authorized: Missing Telegram InitData" ∧
    validateTelegramAuthIndex (some "auth_date=1700000000") "BOT123" =
      AuthOutcome.reject 403 "Not authorized: Invalid hash" ∧
    AuthOutcome.reject 401 "Not authorized: Missing Telegram InitData" ≠
      AuthOutcome.reject 403 "Not authorized: Invalid hash" := by
  refine ⟨rfl, noHash_index _ _ (by decide), ?_⟩
  intro heq
  injection heq with e1 e2
  exact absurd e1 (by decide)

/-- Claim C4, amended: every failure response of either verifier is one
of three distinct client-error responses — 401 for a missing credential,
403 for a hash mismatch, 400 for user-related failures — so failures are
always 4xx rejections but the response does distinguish which check
failed. -/
theorem claimC4_theorem (header : Option String) (tok : String) (s : Nat) (m : String)
    (h : validateTelegramAuthIndex header tok = AuthOutcome.reject s m ∨
      validateTelegramAuthServer header tok = AuthOutcome.reject s m) :
    (s = 401 ∧ m = "Not authorized: Missing Telegram InitData") ∨
    (s = 403 ∧ m = "Not authorized: Invalid hash") ∨
    (s = 400 ∧ (m = "Invalid initData: user missing" ∨
      m = "Invalid initData format or hash")) := by
  rcases h with h | h
  · cases header with
    | none =>
      have h' : AuthOutcome.reject 401 "Not authorized: Missing Telegram InitData" =
          AuthOutcome.reject s m := h
      injection h' with e1 e2
      exact Or.inl ⟨e1.symm, e2.symm⟩
    | some raw =>
      unfold validateTelegramAuthIndex at h
      cases hb : validateTelegramAuthIndexBody (some raw) tok with
      | reject t n =>
        rw [hb] at h
        have h' : AuthOutcome.reject t n = AuthOutcome.reject s m := h
        injection h' with e1 e2
        rcases indexBody_reject_cases raw tok t n hb with ⟨ha, hm⟩ | ⟨ha, hm⟩
        · exact Or.inr (Or.inl ⟨e1.symm.trans ha, e2.symm.trans hm⟩)
        · exact Or.inr (Or.inr ⟨e1.symm.trans ha, Or.inl (e2.symm.trans hm)⟩)
      | ok v =>
        rw [hb] at h
        exact AuthOutcome.noConfusion
          (show AuthOutcome.ok v = AuthOutcome.reject s m from h)
      | thrown =>
        rw [hb] at h
        have h' : AuthOutcome.reject 400 "Invalid initData format or hash" =
            AuthOutcome.reject s m := h
        injection h' with e1 e2
        exact Or.inr (Or.inr ⟨e1.symm, Or.inr e2.symm⟩)
  · cases header with
    | none =>
      have h' : AuthOutcome.reject 401 "Not authorized: Missing Telegram InitData" =
          AuthOutcome.reject s m := h
      injection h' with e1 e2
      exact Or.inl ⟨e1.symm, e2.symm⟩
    | some raw =>
      rw [server_eq_body] at h
      split at h
      · injection h with e1 e2
        exact Or.inr (Or.inl ⟨e1.symm, e2.symm⟩)
      · split at h
        · exact AuthOutcome.noConfusion h
        · split at h
          · exact AuthOutcome.noConfusion h
          · exact AuthOutcome.noConfusion h

/-- Claim C4, witness. -/
theorem claimC4_witness :
    (validateTelegramAuthIndex none "BOT123" =
        AuthOutcome.reject 401 "Not authorized: Missing Telegram InitData" ∨
      validateTelegramAuthServer none "BOT123" =
        AuthOutcome.reject 401 "Not authorized: Missing Telegram InitData") ∧
    ((401 = 401 ∧ "Not authorized: Missing Telegram InitData" =
        "Not authorized: Missing Telegram InitData") ∨
      (401 = 403 ∧ "Not authorized: Missing Telegram InitData" =
        "Not authorized: Invalid hash") ∨
      (401 = 400 ∧ ("Not authorized: Missing Telegram InitData" =
          "Invalid initData: user missing" ∨
        "Not authorized: Missing Telegram InitData" =
          "Invalid initData format or hash"))) :=
  ⟨Or.inl rfl,
   claimC4_theorem none "BOT123" 401 "Not authorized: Missing Telegram InitData" (Or.inl rfl)⟩

/-- Claim C5, counterexample: on a correctly signed blob whose `user`
field is not valid JSON, the server.js verifier does not return a
failure result — `JSON.parse` throws and no try/catch stops it, so the
exception escapes the middleware. -/
theorem claimC5_counterexample :
    validateTelegramAuthServer
      (some "user=x&hash=ce1fccf272112719066d9d6b0e532bb62ae062b744aef7a7bb07290f30fb9359")
      "BOT123" = AuthOutcome.thrown := rfl

/-- Claim C5, amended: the index.js verifier is total — its try/catch
turns every internal throw into a returned 400 response, so no input
makes it throw — but the server.js verifier throws on a correctly
signed blob with a malformed `user` JSON value. -/
theorem claimC5_theorem :
    (∀ header tok, isThrown (validateTelegramAuthIndex header tok) = false) ∧
    validateTelegramAuthServer
      (some "user=x&hash=ce1fccf272112719066d9d6b0e532bb62ae062b744aef7a7bb07290f30fb9359")
      "BOT123" = AuthOutcome.thrown := by
  constructor
  · intro header tok
    unfold validateTelegramAuthIndex
    cases validateTelegramAuthIndexBody header tok <;> rfl
  · rfl

/-- Claim C7, counterexample: with duplicate keys the claim fails — the
blobs `a=1&a=2&hash=H` and `a=2&a=1&hash=H` (a permutation of the
non-hash pairs, `H` signing `a=1\na=2`) verify differently, because the
stable sort preserves the relative order of equal keys and the
check-strings differ. -/
theorem claimC7_counterexample :
    List.Perm
      (parseQS "a=2&a=1&hash=48afcd60b1398d7019a46ff7dd4f66f944998cb3d573ad17ad68ecc760585602")
      (parseQS "a=1&a=2&hash=48afcd60b1398d7019a46ff7dd4f66f944998cb3d573ad17ad68ecc760585602") ∧
    validateTelegramAuthServer
      (some "a=1&a=2&hash=48afcd60b1398d7019a46ff7dd4f66f944998cb3d573ad17ad68ecc760585602")
      "BOT123" = AuthOutcome.ok Json.null ∧
    validateTelegramAuthServer
      (some "a=2&a=1&hash=48afcd60b1398d7019a46ff7dd4f66f944998cb3d573ad17ad68ecc760585602")
      "BOT123" = AuthOutcome.reject 403 "Not authorized: Invalid hash" ∧
    AuthOutcome.ok Json.null ≠
      AuthOutcome.reject 403 "Not authorized: Invalid hash" := by
  refine ⟨by decide, rfl, rfl, ?_⟩
  intro heq
  exact AuthOutcome.noConfusion heq

/-- Claim C7, amended: for every rawBlob whose keys are pairwise
distinct, permuting its pairs yields the same outcome from both
verifier versions. -/
theorem claimC7_theorem (raw1 raw2 tok : String)
    (hperm : List.Perm (parseQS raw2) (parseQS raw1))
    (hnd : ((parseQS raw1).map (fun p => keyUnits p.1)).Nodup) :
    validateTelegramAuthServer (some raw1) tok =
      validateTelegramAuthServer (some raw2) tok ∧
    validateTelegramAuthIndex (some raw1) tok =
      validateTelegramAuthIndex (some raw2) tok := by
  have hsort : sortPairs (parseQS raw1) = sortPairs (parseQS raw2) :=
    sortPairs_eq_of_perm _ _ hperm.symm hnd
  have hndf : ((parseQS raw1).map Prod.fst).Nodup := by
    have hmm : ((parseQS raw1).map Prod.fst).map keyUnits =
        (parseQS raw1).map (fun p => keyUnits p.1) := by
      rw [List.map_map]
      rfl
    exact List.Nodup.of_map keyUnits (hmm ▸ hnd)
  have hhash : getFirst "hash" (parseQS raw1) = getFirst "hash" (parseQS raw2) :=
    getFirst_eq_of_perm "hash" _ _ hperm.symm hndf
  have hcalc : calculatedHash raw1 tok = calculatedHash raw2 tok := by
    unfold calculatedHash
    rw [hsort]
  constructor
  · rw [server_eq_body, server_eq_body, hsort, hhash, hcalc]
  · unfold validateTelegramAuthIndex
    rw [indexBody_eq_body, indexBody_eq_body, hsort, hhash, hcalc]

/-- Claim C7, witness. -/
theorem claimC7_witness :
    (List.Perm (parseQS "b=2&a=1&hash=x") (parseQS "a=1&b=2&hash=x") ∧
      ((parseQS "a=1&b=2&hash=x").map (fun p => keyUnits p.1)).Nodup) ∧
    (validateTelegramAuthServer (some "a=1&b=2&hash=x") "BOT123" =
        validateTelegramAuthServer (some "b=2&a=1&hash=x") "BOT123" ∧
      validateTelegramAuthIndex (some "a=1&b=2&hash=x") "BOT123" =
        validateTelegramAuthIndex (some "b=2&a=1&hash=x") "BOT123") :=
  ⟨⟨by decide, by decide⟩,
   claimC7_theorem "a=1&b=2&hash=x" "b=2&a=1&hash=x" "BOT123" (by decide) (by decide)⟩

/-- Claim C8, counterexample: a blob whose fields carry a valid JSON
identity object and whose `hash` is computed per the spec's signing
algorithm (key and message swapped relative to the code) is rejected by
the verifier with the invalid-hash response. -/
theorem claimC8_counterexample :
    getFirst "hash"
        (parseQS "auth_date=1700000000&user=%7B%22id%22%3A42%2C%22username%22%3A%22alice%22%7D&hash=b1e52adfe493a5cc4adb43552f521364888e9f1198f74e52ef59600beb297644") =
      some (specCandidateHash
        "auth_date=1700000000&user=%7B%22id%22%3A42%2C%22username%22%3A%22alice%22%7D&hash=b1e52adfe493a5cc4adb43552f521364888e9f1198f74e52ef59600beb297644"
        "BOT123") ∧
    validateTelegramAuthIndex
      (some "auth_date=1700000000&user=%7B%22id%22%3A42%2C%22username%22%3A%22alice%22%7D&hash=b1e52adfe493a5cc4adb43552f521364888e9f1198f74e52ef59600beb297644")
      "BOT123" = AuthOutcome.reject 403 "Not authorized: Invalid hash" :=
  ⟨by decide, rfl⟩

/-- Claim C8, amended: round-trip holds for the code's signing
algorithm — if the blob's `hash` equals the verifier's candidate hash
and its `user` value is non-empty and parses as JSON to `v`, both
verifier versions succeed and return exactly `v`. -/
theorem claimC8_theorem (raw tok us : String) (v : Json)
    (hh : getFirst "hash" (parseQS raw) = some (calculatedHash raw tok))
    (hu : getFirst "user" (sortPairs (parseQS raw)) = some us)
    (hus : us ≠ "")
    (hj : jsonParse us = some v) :
    validateTelegramAuthIndex (some raw) tok = AuthOutcome.ok v ∧
    validateTelegramAuthServer (some raw) tok = AuthOutcome.ok v := by
  constructor
  · unfold validateTelegramAuthIndex
    rw [indexBody_eq_body, hh, if_neg (by simp), hu]
    show (match (if us = "" then AuthOutcome.reject 400 "Invalid initData: user missing"
        else match jsonParse us with
          | some v => AuthOutcome.ok v
          | none => AuthOutcome.thrown) with
      | AuthOutcome.thrown => AuthOutcome.reject 400 "Invalid initData format or hash"
      | r => r) = AuthOutcome.ok v
    rw [if_neg hus, hj]
  · rw [server_eq_body, hh, if_neg (by simp), hu]
    show (match jsonParse us with
      | some v => AuthOutcome.ok v
      | none => AuthOutcome.thrown) = AuthOutcome.ok v
    rw [hj]

/-- Claim C8, witness. -/
theorem claimC8_witness :
    (getFirst "hash"
        (parseQS "auth_date=1700000000&user=%7B%22id%22%3A42%2C%22username%22%3A%22alice%22%7D&hash=26659685d4dc7fcc08432b65c99d0e878215037d59434074b6f749e788080515") =
      some (calculatedHash
        "auth_date=1700000000&user=%7B%22id%22%3A42%2C%22username%22%3A%22alice%22%7D&hash=26659685d4dc7fcc08432b65c99d0e878215037d59434074b6f749e788080515"
        "BOT123") ∧
      getFirst "user" (sortPairs
        (parseQS "auth_date=1700000000&user=%7B%22id%22%3A42%2C%22username%22%3A%22alice%22%7D&hash=26659685d4dc7fcc08432b65c99d0e878215037d59434074b6f749e788080515")) =
        some "\x7b\"id\":42,\"username\":\"alice\"\x7d" ∧
      "\x7b\"id\":42,\"username\":\"alice\"\x7d" ≠ "" ∧
      jsonParse "\x7b\"id\":42,\"username\":\"alice\"\x7d" =
        some (Json.obj [("id", Json.num 42 0), ("username", Json.str "alice")])) ∧
    (validateTelegramAuthIndex
        (some "auth_date=1700000000&user=%7B%22id%22%3A42%2C%22username%22%3A%22alice%22%7D&hash=26659685d4dc7fcc08432b65c99d0e878215037d59434074b6f749e788080515")
        "BOT123" =
        AuthOutcome.ok (Json.obj [("id", Json.num 42 0), ("username", Json.str "alice")]) ∧
      validateTelegramAuthServer
        (some "auth_date=1700000000&user=%7B%22id%22%3A42%2C%22username%22%3A%22alice%22%7D&hash=26659685d4dc7fcc08432b65c99d0e878215037d59434074b6f749e788080515")
        "BOT123" =
        AuthOutcome.ok (Json.obj [("id", Json.num 42 0), ("username", Json.str "alice")])) :=
  ⟨⟨by decide, by decide, by decide, rfl⟩,
   claimC8_theorem
     "auth_date=1700000000&user=%7B%22id%22%3A42%2C%22username%22%3A%22alice%22%7D&hash=26659685d4dc7fcc08432b65c99d0e878215037d59434074b6f749e788080515"
     "BOT123" "\x7b\"id\":42,\"username\":\"alice\"\x7d"
     (Json.obj [("id", Json.num 42 0), ("username", Json.str "alice")])
     (by decide) (by decide) (by decide) rfl⟩

/-- Claim C10: on a correctly signed blob whose `user` value is the
literal four-character string `null`, the presence check sees a
non-empty (truthy) string and `JSON.parse` yields `null`, so both
verifier versions succeed with a `null` identity. -/
theorem claimC10_theorem (raw tok : String)
    (hh : getFirst "hash" (parseQS raw) = some (calculatedHash raw tok))
    (hu : getFirst "user" (sortPairs (parseQS raw)) = some "null") :
    validateTelegramAuthIndex (some raw) tok = AuthOutcome.ok Json.null ∧
    validateTelegramAuthServer (some raw) tok = AuthOutcome.ok Json.null := by
  constructor
  · unfold validateTelegramAuthIndex
    rw [indexBody_eq_body, hh, if_neg (by simp), hu]
    rfl
  · rw [server_eq_body, hh, if_neg (by simp), hu]
    rfl

/-- Claim C10, witness. -/
theorem claimC10_witness :
    (getFirst "hash"
        (parseQS "user=null&hash=8c64a2c92adb2d14822071cd2462bcbd1efb8259c68eb0767a44322e86a1f3bd") =
      some (calculatedHash
        "user=null&hash=8c64a2c92adb2d14822071cd2462bcbd1efb8259c68eb0767a44322e86a1f3bd"
        "BOT123") ∧
      getFirst "user" (sortPairs
        (parseQS "user=null&hash=8c64a2c92adb2d14822071cd2462bcbd1efb8259c68eb0767a44322e86a1f3bd")) =
        some "null") ∧
    (validateTelegramAuthIndex
        (some "user=null&hash=8c64a2c92adb2d14822071cd2462bcbd1efb8259c68eb0767a44322e86a1f3bd")
        "BOT123" = AuthOutcome.ok Json.null ∧
      validateTelegramAuthServer
        (some "user=null&hash=8c64a2c92adb2d14822071cd2462bcbd1efb8259c68eb0767a44322e86a1f3bd")
        "BOT123" = AuthOutcome.ok Json.null) :=
  ⟨⟨by decide, by decide⟩,
   claimC10_theorem
     "user=null&hash=8c64a2c92adb2d14822071cd2462bcbd1efb8259c68eb0767a44322e86a1f3bd"
     "BOT123" (by decide) (by decide)⟩
